import Mathlib

/-!
Verification of the libselinux JNI binding layer
(`src/library/src/main/jni/libselinux-jni.c`).

The C file is a foreign-call bridge: it marshals managed byte buffers to
null-terminated native strings and back, invokes libselinux functions under a
`TEMP_FAILURE_RETRY` macro that clears `errno` and retries while
`errno == EINTR`, inspects `errno` afterwards, and translates failures into
`android.system.ErrnoException` objects (chaining any already-pending managed
exception as the cause).  Lazily memoized JNI symbol lookups `abort()` the
process on failure.

Shallow embedding conventions used throughout:
* a managed byte buffer (`jbyteArray`) is a `List Nat` of byte values;
* a native C string is a `List Nat` whose logical content ends at the first 0;
* `errno` is a `Nat` (0 = no error);
* the thread's pending managed exception slot is an `Option Exn`;
* one invocation of a (retried) native libselinux call is abstracted by a
  stream of `Attempt`s: attempt `i` records the return value, the `errno`
  value observed after that attempt, and (for `get` operations) the context
  string the attempt produced.  `TEMP_FAILURE_RETRY` consumes the stream
  while `errno = EINTR`, exactly as the macro's `do … while (errno == EINTR)`
  loop re-runs the raw call;
* heap traffic of marshaled input buffers and the moment `errno` is
  inspected are recorded in an explicit event trace, mirroring the order of
  the corresponding statements in the C source.
-/

/-- Error number for an interrupted call, `EINTR` from `<errno.h>`. -/
def EINTR : Nat := 4

/-- Error number for an input/output error, `EIO` from `<errno.h>`. -/
def EIO_code : Nat := 5

/-- A managed exception object.  `android.system.ErrnoException` has exactly
the two constructors used by `throwErrnoException`:
`(String, int, Throwable)` — message, error code and cause — and
`(String, int)` — message and error code, no cause.  `mk3` and `mk2` model
which of the two constructors produced the object. -/
inductive Exn : Type where
  | mk3 (message : String) (errorCode : Int) (cause : Exn) : Exn
  | mk2 (message : String) (errorCode : Int) : Exn
deriving DecidableEq

/-- The `detailMessage` carried by an exception. -/
def Exn.message : Exn → String
  | .mk3 m _ _ => m
  | .mk2 m _ => m

/-- The numeric `errno` field carried by an exception. -/
def Exn.errorCode : Exn → Int
  | .mk3 _ e _ => e
  | .mk2 _ e => e

/-- The chained cause of an exception, if it was built with the
three-argument constructor. -/
def Exn.cause : Exn → Option Exn
  | .mk3 _ _ c => some c
  | .mk2 _ _ => none

/-- `NewObject` step of `throwException`: the three-argument constructor is
used when a cause was captured, the two-argument one otherwise
(source lines 105-111). -/
def constructExn (functionName : String) (error : Int) : Option Exn → Exn
  | some cause => Exn.mk3 functionName error cause
  | none => Exn.mk2 functionName error

/-- JNI `ExceptionCheck`: whether a managed exception is pending. -/
def exceptionCheck (pending : Option Exn) : Bool :=
  pending.isSome

/-- JNI `ExceptionClear`: empties the pending-exception slot. -/
def exceptionClear (_pending : Option Exn) : Option Exn :=
  none

/-- Result of `throwException`: the pending-slot state at the moment the new
exception object is constructed (`NewObject`), the exception object thrown,
and the pending-slot state after `Throw`. -/
structure ThrowOut where
  slotBeforeNew : Option Exn
  thrown : Exn
  slotAfter : Option Exn
deriving DecidableEq

/-- `throwException` (source lines 92-114): if an exception is pending it is
captured as the cause via `ExceptionOccurred` and the slot is cleared via
`ExceptionClear`; the new exception is then constructed (three-argument form
when a cause exists, two-argument form otherwise) and thrown.  The
`NewStringUTF` allocation of the message is assumed to succeed. -/
def throwException (pending : Option Exn) (functionName : String) (error : Int) : ThrowOut :=
  let cause : Option Exn := if exceptionCheck pending then pending else none
  let slot : Option Exn := if exceptionCheck pending then exceptionClear pending else pending
  let exception : Exn := constructExn functionName error cause
  ⟨slot, exception, some exception⟩

/-- `throwErrnoException` (source lines 116-130): snapshots `errno` and throws
an `ErrnoException` with the failed function's name as message.  Its static
`constructor3`/`constructor2` memoization is modeled separately by
`resolveErrnoExceptionConstructors` in the symbol-cache section below; on
the throw path modeled here both constructors resolve successfully, so the
prologue only determines which constructor handles `throwException`
receives, which `constructExn` models by whether a cause is present. -/
def throwErrnoException (errnoValue : Nat) (pending : Option Exn) (functionName : String) :
    ThrowOut :=
  let error : Int := Int.ofNat errnoValue
  throwException pending functionName error

/-- `mallocStringFromBytes` (source lines 132-141): `malloc(length + 1)`,
`memcpy` of all `length` bytes, and `string[length] = 0`.  The result is
the byte buffer with a terminator appended. -/
def mallocStringFromBytes (javaBytes : List Nat) : List Nat :=
  javaBytes ++ [0]

/-- C `strlen`: number of bytes before the first 0. -/
def strlen : List Nat → Nat
  | [] => 0
  | b :: rest => if b = 0 then 0 else strlen rest + 1

/-- `newBytesFromString` (source lines 143-153): measures the native string
with `strlen` and copies that many bytes into a fresh managed array
(`NewByteArray` allocation assumed to succeed). -/
def newBytesFromString (s : List Nat) : List Nat :=
  s.take (strlen s)

/-- One attempt of a retried native call: the function's return value, the
`errno` value observed after the attempt (the macro clears `errno` to 0
before the first attempt), and the context string produced (meaningful for
the `get` operations on a successful attempt; `[]` otherwise). -/
structure Attempt where
  rc : Int
  errno : Nat
  ctx : List Nat
deriving DecidableEq

/-- The `TEMP_FAILURE_RETRY` macro (source lines 25-32): `errno = 0`, then
re-run the expression while `errno == EINTR`; the value of the last attempt
is the macro's value.  An exhausted stream stands for the cleared state
`errno = 0` with return value 0 (the streams used by the theorems always end
in a non-interrupted attempt). -/
def tempFailureRetry : List Attempt → Attempt
  | [] => ⟨0, 0, []⟩
  | a :: rest => if a.errno = EINTR then tempFailureRetry rest else a

/-- Observable resource events of one operation, in program order:
allocation and release of marshaled input buffers (`id` numbers the buffers
in order of allocation), `freecon` of the library-owned output buffer, and
the inspection of `errno` (`if (errno)`). -/
inductive Event : Type where
  | malloc (id : Nat)
  | free (id : Nat)
  | freecon
  | errnoCheck (value : Nat)
deriving DecidableEq

/-- Observable outcome of one exposed operation: its return value, the
pending-exception slot after the call, the final `errno`, and the resource
event trace. -/
structure OpOut (α : Type) where
  ret : α
  pending : Option Exn
  errno : Nat
  events : List Event

/-- `Java_me_zhanghai_android_libselinux_SeLinux_fgetfilecon`
(source lines 155-168): runs `fgetfilecon(fd, &context)` under
`TEMP_FAILURE_RETRY`; nonzero `errno` throws and returns null, otherwise the
context is converted with `newBytesFromString` and released with `freecon`.
The `fd` is the integer already extracted from the managed `FileDescriptor`
via `GetIntField`; the native call itself is abstracted by `attempts`. -/
def Java_me_zhanghai_android_libselinux_SeLinux_fgetfilecon (fd : Int)
    (attempts : List Attempt) (pending : Option Exn) : OpOut (Option (List Nat)) :=
  let r := tempFailureRetry attempts
  if r.errno ≠ 0 then
    { ret := none
      pending := (throwErrnoException r.errno pending "fgetfilecon").slotAfter
      errno := r.errno
      events := [Event.errnoCheck r.errno] }
  else
    { ret := some (newBytesFromString r.ctx)
      pending := pending
      errno := r.errno
      events := [Event.errnoCheck r.errno, Event.freecon] }

/-- `Java_me_zhanghai_android_libselinux_SeLinux_fsetfilecon`
(source lines 170-180): marshals the context buffer, runs
`fsetfilecon(fd, context)` under `TEMP_FAILURE_RETRY`, frees the buffer, and
then throws if `errno` is nonzero. -/
def Java_me_zhanghai_android_libselinux_SeLinux_fsetfilecon (fd : Int)
    (javaContext : List Nat) (attempts : List Attempt) (pending : Option Exn) : OpOut Unit :=
  let context := mallocStringFromBytes javaContext
  let r := tempFailureRetry attempts
  if r.errno ≠ 0 then
    { ret := ()
      pending := (throwErrnoException r.errno pending "fsetfilecon").slotAfter
      errno := r.errno
      events := [Event.malloc 0, Event.free 0, Event.errnoCheck r.errno] }
  else
    { ret := ()
      pending := pending
      errno := r.errno
      events := [Event.malloc 0, Event.free 0, Event.errnoCheck r.errno] }

/-- `doGetfilecon` (source lines 182-194): marshals the path, runs
`(isLgetfilecon ? lgetfilecon : getfilecon)(path, &context)` under
`TEMP_FAILURE_RETRY`, frees the path, then either throws (message chosen by
the same flag) and returns null, or converts and `freecon`s the context. -/
def doGetfilecon (javaPath : List Nat) (attempts : List Attempt) (pending : Option Exn)
    (isLgetfilecon : Bool) : OpOut (Option (List Nat)) :=
  let path := mallocStringFromBytes javaPath
  let r := tempFailureRetry attempts
  if r.errno ≠ 0 then
    { ret := none
      pending := (throwErrnoException r.errno pending
        (if isLgetfilecon then "lgetfilecon" else "getfilecon")).slotAfter
      errno := r.errno
      events := [Event.malloc 0, Event.free 0, Event.errnoCheck r.errno] }
  else
    { ret := some (newBytesFromString r.ctx)
      pending := pending
      errno := r.errno
      events := [Event.malloc 0, Event.free 0, Event.errnoCheck r.errno, Event.freecon] }

/-- `Java_me_zhanghai_android_libselinux_SeLinux_getfilecon`
(source lines 196-200): `doGetfilecon` with the follow-symlinks variant. -/
def Java_me_zhanghai_android_libselinux_SeLinux_getfilecon (javaPath : List Nat)
    (attempts : List Attempt) (pending : Option Exn) : OpOut (Option (List Nat)) :=
  doGetfilecon javaPath attempts pending false

/-- `Java_me_zhanghai_android_libselinux_SeLinux_lgetfilecon`
(source lines 210-214): `doGetfilecon` with the no-follow variant. -/
def Java_me_zhanghai_android_libselinux_SeLinux_lgetfilecon (javaPath : List Nat)
    (attempts : List Attempt) (pending : Option Exn) : OpOut (Option (List Nat)) :=
  doGetfilecon javaPath attempts pending true

/-- `Java_me_zhanghai_android_libselinux_SeLinux_is_1selinux_1enabled`
(source lines 202-208): calls `is_selinux_enabled()` once — no retry macro,
no `errno` inspection, no throw — and maps any nonzero return to
`JNI_TRUE`, zero to `JNI_FALSE`.  `errno0` is the ambient `errno` at entry,
which the operation leaves untouched. -/
def Java_me_zhanghai_android_libselinux_SeLinux_is_1selinux_1enabled (enabled : Int)
    (errno0 : Nat) (pending : Option Exn) : OpOut Bool :=
  let javaEnabled : Bool := if enabled ≠ 0 then true else false
  { ret := javaEnabled
    pending := pending
    errno := errno0
    events := [] }

/-- `doSetfilecon` (source lines 216-226): marshals path and context, runs
`(isLsetfilecon ? lsetfilecon : setfilecon)(path, context)` under
`TEMP_FAILURE_RETRY`, frees both buffers, and throws (message chosen by the
same flag) when `errno` is nonzero. -/
def doSetfilecon (javaPath : List Nat) (javaContext : List Nat) (attempts : List Attempt)
    (pending : Option Exn) (isLsetfilecon : Bool) : OpOut Unit :=
  let path := mallocStringFromBytes javaPath
  let context := mallocStringFromBytes javaContext
  let r := tempFailureRetry attempts
  if r.errno ≠ 0 then
    { ret := ()
      pending := (throwErrnoException r.errno pending
        (if isLsetfilecon then "lsetfilecon" else "setfilecon")).slotAfter
      errno := r.errno
      events := [Event.malloc 0, Event.malloc 1, Event.free 0, Event.free 1,
        Event.errnoCheck r.errno] }
  else
    { ret := ()
      pending := pending
      errno := r.errno
      events := [Event.malloc 0, Event.malloc 1, Event.free 0, Event.free 1,
        Event.errnoCheck r.errno] }

/-- `Java_me_zhanghai_android_libselinux_SeLinux_setfilecon`
(source lines 250-254): `doSetfilecon` with the follow-symlinks variant. -/
def Java_me_zhanghai_android_libselinux_SeLinux_setfilecon (javaPath : List Nat)
    (javaContext : List Nat) (attempts : List Attempt) (pending : Option Exn) : OpOut Unit :=
  doSetfilecon javaPath javaContext attempts pending false

/-- `Java_me_zhanghai_android_libselinux_SeLinux_lsetfilecon`
(source lines 228-232): `doSetfilecon` with the no-follow variant. -/
def Java_me_zhanghai_android_libselinux_SeLinux_lsetfilecon (javaPath : List Nat)
    (javaContext : List Nat) (attempts : List Attempt) (pending : Option Exn) : OpOut Unit :=
  doSetfilecon javaPath javaContext attempts pending true

/-- `Java_me_zhanghai_android_libselinux_SeLinux_security_1getenforce`
(source lines 234-248): runs `security_getenforce()` under
`TEMP_FAILURE_RETRY`; a -1 return with `errno` still 0 is normalized to
`errno = EIO`; nonzero `errno` then throws; the returned boolean is
`enforce != 0`. -/
def Java_me_zhanghai_android_libselinux_SeLinux_security_1getenforce
    (attempts : List Attempt) (pending : Option Exn) : OpOut Bool :=
  let r := tempFailureRetry attempts
  let enforce := r.rc
  let errno1 := if enforce = -1 ∧ r.errno = 0 then EIO_code else r.errno
  let pending1 :=
    if errno1 ≠ 0 then (throwErrnoException errno1 pending "security_getenforce").slotAfter
    else pending
  { ret := if enforce ≠ 0 then true else false
    pending := pending1
    errno := errno1
    events := [Event.errnoCheck errno1] }

/-- The JNI lookup environment for the symbols the binding resolves: the
result of `FindClass` for the requested class name (`none` = lookup failed),
of `NewGlobalRef` on a local reference, of `GetFieldID` for the requested
field, and of `GetMethodID` for each of the two `ErrnoException` constructor
signatures — `(Ljava/lang/String;ILjava/lang/Throwable;)V` and
`(Ljava/lang/String;I)V` (`none` = lookup failed).  Handles are opaque
`Nat`s. -/
structure JniSymEnv where
  findClassResult : Option Nat
  newGlobalRefResult : Nat → Option Nat
  getFieldIDResult : Option Nat
  getMethodID3Result : Option Nat
  getMethodID2Result : Option Nat

/-- Outcome of a symbol resolution: a handle, or immediate process
termination via `abort()`.  There is deliberately no alternative for a
raised managed exception — the source never throws from these paths. -/
inductive SymOutcome (α : Type) where
  | ok (value : α)
  | aborted
deriving DecidableEq

/-- `findClass` (source lines 34-47): `FindClass`; a null result calls
`abort()`; the local reference is promoted with `NewGlobalRef`, whose null
result also calls `abort()`. -/
def findClass (env : JniSymEnv) : SymOutcome Nat :=
  match env.findClassResult with
  | none => SymOutcome.aborted
  | some localClass =>
    match env.newGlobalRefResult localClass with
    | none => SymOutcome.aborted
    | some globalClass => SymOutcome.ok globalClass

/-- `findField` (source lines 49-56): `GetFieldID`; a null result calls
`abort()`. -/
def findField (env : JniSymEnv) : SymOutcome Nat :=
  match env.getFieldIDResult with
  | none => SymOutcome.aborted
  | some field => SymOutcome.ok field

/-- `findMethod` (source lines 58-65): `GetMethodID`; a null result calls
`abort()`.  `methodLookup` is the environment's `GetMethodID` result for the
requested name and signature. -/
def findMethod (methodLookup : Option Nat) : SymOutcome Nat :=
  match methodLookup with
  | none => SymOutcome.aborted
  | some method => SymOutcome.ok method

/-- Result of one call to a memoizing symbol getter: its outcome, the cache
(the C `static` variable) after the call, and how many JNI lookups the call
performed. -/
structure CacheResult where
  outcome : SymOutcome Nat
  cache : Option Nat
  lookupsPerformed : Nat
deriving DecidableEq

/-- `getErrnoExceptionClass` (source lines 67-73): returns the `static`
cached class if present, else resolves it with `findClass` and caches it.
`errnoExceptionClass` is the value of the `static` variable at entry. -/
def getErrnoExceptionClass (errnoExceptionClass : Option Nat) (env : JniSymEnv) : CacheResult :=
  match errnoExceptionClass with
  | some cached => ⟨SymOutcome.ok cached, some cached, 0⟩
  | none =>
    match findClass env with
    | SymOutcome.aborted => ⟨SymOutcome.aborted, none, 1⟩
    | SymOutcome.ok c => ⟨SymOutcome.ok c, some c, 1⟩

/-- `getFileDescriptorClass` (source lines 75-81): same memoization pattern
for `java/io/FileDescriptor`. -/
def getFileDescriptorClass (fileDescriptorClass : Option Nat) (env : JniSymEnv) : CacheResult :=
  match fileDescriptorClass with
  | some cached => ⟨SymOutcome.ok cached, some cached, 0⟩
  | none =>
    match findClass env with
    | SymOutcome.aborted => ⟨SymOutcome.aborted, none, 1⟩
    | SymOutcome.ok c => ⟨SymOutcome.ok c, some c, 1⟩

/-- Result of `getFileDescriptorDescriptorField`: outcome, the field cache
and class cache after the call, and the number of JNI lookups performed. -/
structure FieldCacheResult where
  outcome : SymOutcome Nat
  fieldCache : Option Nat
  classCache : Option Nat
  lookupsPerformed : Nat
deriving DecidableEq

/-- `getFileDescriptorDescriptorField` (source lines 83-90): returns the
`static` cached field if present; otherwise resolves the owning class via
`getFileDescriptorClass` and the `descriptor` field via `findField`, caching
the result.  `fieldCache` and `classCache` are the two `static` variables at
entry. -/
def getFileDescriptorDescriptorField (fieldCache : Option Nat) (classCache : Option Nat)
    (env : JniSymEnv) : FieldCacheResult :=
  match fieldCache with
  | some cached => ⟨SymOutcome.ok cached, some cached, classCache, 0⟩
  | none =>
    let classResult := getFileDescriptorClass classCache env
    match classResult.outcome with
    | SymOutcome.aborted =>
      ⟨SymOutcome.aborted, none, classResult.cache, classResult.lookupsPerformed⟩
    | SymOutcome.ok _ =>
      match findField env with
      | SymOutcome.aborted =>
        ⟨SymOutcome.aborted, none, classResult.cache, classResult.lookupsPerformed + 1⟩
      | SymOutcome.ok f =>
        ⟨SymOutcome.ok f, some f, classResult.cache, classResult.lookupsPerformed + 1⟩

/-- Result of the constructor-resolution prologue of `throwErrnoException`:
its outcome (the pair of constructor handles, or process abort), the two
constructor caches (the `static jmethodID` variables) and the
`ErrnoException` class cache after the prologue, and the number of JNI
lookups performed. -/
structure CtorCacheResult where
  outcome : SymOutcome (Nat × Nat)
  constructor3Cache : Option Nat
  constructor2Cache : Option Nat
  classCache : Option Nat
  lookupsPerformed : Nat
deriving DecidableEq

/-- The `static jmethodID constructor3` / `constructor2` memoization inside
`throwErrnoException` (source lines 118-127): each constructor handle, when
not yet cached, is resolved with
`findMethod(env, getErrnoExceptionClass(env), "<init>", signature)` — so
each resolution first runs the class getter, then the `GetMethodID` lookup,
and `findMethod` aborts the process on a failed lookup.  `constructor3`,
`constructor2` and `errnoExceptionClass` are the three `static` variables at
entry.  (The further `getErrnoExceptionClass(env)` call passed as
`throwException`'s class argument at source line 128 is the same class
getter modeled above.) -/
def resolveErrnoExceptionConstructors (constructor3 constructor2 : Option Nat)
    (errnoExceptionClass : Option Nat) (env : JniSymEnv) : CtorCacheResult :=
  match constructor3 with
  | some c3 =>
    match constructor2 with
    | some c2 => ⟨SymOutcome.ok (c3, c2), some c3, some c2, errnoExceptionClass, 0⟩
    | none =>
      let classResult := getErrnoExceptionClass errnoExceptionClass env
      match classResult.outcome with
      | SymOutcome.aborted =>
        ⟨SymOutcome.aborted, some c3, none, classResult.cache,
          classResult.lookupsPerformed⟩
      | SymOutcome.ok _ =>
        match findMethod env.getMethodID2Result with
        | SymOutcome.aborted =>
          ⟨SymOutcome.aborted, some c3, none, classResult.cache,
            classResult.lookupsPerformed + 1⟩
        | SymOutcome.ok c2 =>
          ⟨SymOutcome.ok (c3, c2), some c3, some c2, classResult.cache,
            classResult.lookupsPerformed + 1⟩
  | none =>
    let classResult3 := getErrnoExceptionClass errnoExceptionClass env
    match classResult3.outcome with
    | SymOutcome.aborted =>
      ⟨SymOutcome.aborted, none, constructor2, classResult3.cache,
        classResult3.lookupsPerformed⟩
    | SymOutcome.ok _ =>
      match findMethod env.getMethodID3Result with
      | SymOutcome.aborted =>
        ⟨SymOutcome.aborted, none, constructor2, classResult3.cache,
          classResult3.lookupsPerformed + 1⟩
      | SymOutcome.ok c3 =>
        match constructor2 with
        | some c2 =>
          ⟨SymOutcome.ok (c3, c2), some c3, some c2, classResult3.cache,
            classResult3.lookupsPerformed + 1⟩
        | none =>
          let classResult2 := getErrnoExceptionClass classResult3.cache env
          match classResult2.outcome with
          | SymOutcome.aborted =>
            ⟨SymOutcome.aborted, some c3, none, classResult2.cache,
              classResult3.lookupsPerformed + 1 + classResult2.lookupsPerformed⟩
          | SymOutcome.ok _ =>
            match findMethod env.getMethodID2Result with
            | SymOutcome.aborted =>
              ⟨SymOutcome.aborted, some c3, none, classResult2.cache,
                classResult3.lookupsPerformed + 1 + classResult2.lookupsPerformed + 1⟩
            | SymOutcome.ok c2 =>
              ⟨SymOutcome.ok (c3, c2), some c3, some c2, classResult2.cache,
                classResult3.lookupsPerformed + 1 + classResult2.lookupsPerformed + 1⟩

section MarshalingLemmas

theorem strlen_append_single_zero (B : List Nat) (h : ∀ b ∈ B, b ≠ 0) :
    strlen (B ++ [0]) = B.length := by
  induction B with
  | nil => simp [strlen]
  | cons a t ih =>
    have ha : a ≠ 0 := h a (List.mem_cons_self a t)
    have ht : ∀ b ∈ t, b ≠ 0 := fun b hb => h b (List.mem_cons_of_mem a hb)
    simp [strlen, ha, ih ht]

theorem newBytes_malloc_roundtrip (B : List Nat) (h : ∀ b ∈ B, b ≠ 0) :
    newBytesFromString (mallocStringFromBytes B) = B := by
  unfold newBytesFromString mallocStringFromBytes
  rw [strlen_append_single_zero B h]
  exact List.take_left B [0]

end MarshalingLemmas

/-- Claim C1 fails as stated: the round trip is not exact for every managed
byte buffer.  For the buffer `[0]` (a single zero byte), the native string
built by `mallocStringFromBytes` is `[0, 0]`, and `newBytesFromString`
measures its content with `strlen`, which stops at the first zero, so the
round trip yields the empty buffer, not `[0]`. -/
theorem claim_C1_counterexample :
    newBytesFromString (mallocStringFromBytes [0]) ≠ [0] := by
  decide

/-- Claim C1 (amended): for every managed byte buffer `B` that contains no
zero byte, converting `B` to a native string and converting that string's
contents back reproduces `B`'s bytes exactly; and — for every buffer, with
no restriction — the native buffer produced from `B` is exactly
`len(B) + 1` bytes long with its final byte equal to the null
terminator. -/
theorem claim_C1_marshal_roundtrip (B : List Nat) (h : ∀ b ∈ B, b ≠ 0) :
    newBytesFromString (mallocStringFromBytes B) = B ∧
    (∀ C : List Nat, (mallocStringFromBytes C).length = C.length + 1 ∧
      (mallocStringFromBytes C).getLast? = some 0) := by
  refine ⟨newBytes_malloc_roundtrip B h, fun C => ⟨?_, ?_⟩⟩
  · simp [mallocStringFromBytes]
  · simp [mallocStringFromBytes]

/-- Concrete instance of claim C1's amended statement at `B = [104, 105]`. -/
theorem claim_C1_marshal_roundtrip_witness :
    newBytesFromString (mallocStringFromBytes [104, 105]) = [104, 105] ∧
    (∀ C : List Nat, (mallocStringFromBytes C).length = C.length + 1 ∧
      (mallocStringFromBytes C).getLast? = some 0) :=
  claim_C1_marshal_roundtrip [104, 105] (by decide)

section RetryLemmas

theorem tempFailureRetry_replicate_eintr (n : Nat) (intr : Attempt)
    (h : intr.errno = EINTR) (rest : List Attempt) :
    tempFailureRetry (List.replicate n intr ++ rest) = tempFailureRetry rest := by
  induction n with
  | zero => simp
  | succ k ih => simp [List.replicate_succ, tempFailureRetry, h, ih]

theorem fgetfilecon_attempts_congr (fd : Int) (a1 a2 : List Attempt) (p : Option Exn)
    (h : tempFailureRetry a1 = tempFailureRetry a2) :
    Java_me_zhanghai_android_libselinux_SeLinux_fgetfilecon fd a1 p =
      Java_me_zhanghai_android_libselinux_SeLinux_fgetfilecon fd a2 p := by
  simp only [Java_me_zhanghai_android_libselinux_SeLinux_fgetfilecon, h]

theorem fsetfilecon_attempts_congr (fd : Int) (ctxB : List Nat) (a1 a2 : List Attempt)
    (p : Option Exn) (h : tempFailureRetry a1 = tempFailureRetry a2) :
    Java_me_zhanghai_android_libselinux_SeLinux_fsetfilecon fd ctxB a1 p =
      Java_me_zhanghai_android_libselinux_SeLinux_fsetfilecon fd ctxB a2 p := by
  simp only [Java_me_zhanghai_android_libselinux_SeLinux_fsetfilecon, h]

theorem doGetfilecon_attempts_congr (path : List Nat) (a1 a2 : List Attempt) (p : Option Exn)
    (flag : Bool) (h : tempFailureRetry a1 = tempFailureRetry a2) :
    doGetfilecon path a1 p flag = doGetfilecon path a2 p flag := by
  simp only [doGetfilecon, h]

theorem doSetfilecon_attempts_congr (path ctxB : List Nat) (a1 a2 : List Attempt)
    (p : Option Exn) (flag : Bool) (h : tempFailureRetry a1 = tempFailureRetry a2) :
    doSetfilecon path ctxB a1 p flag = doSetfilecon path ctxB a2 p flag := by
  simp only [doSetfilecon, h]

theorem security_getenforce_attempts_congr (a1 a2 : List Attempt) (p : Option Exn)
    (h : tempFailureRetry a1 = tempFailureRetry a2) :
    Java_me_zhanghai_android_libselinux_SeLinux_security_1getenforce a1 p =
      Java_me_zhanghai_android_libselinux_SeLinux_security_1getenforce a2 p := by
  simp only [Java_me_zhanghai_android_libselinux_SeLinux_security_1getenforce, h]

end RetryLemmas

/-- Claim C2: for every exposed operation that performs a retryable native
call (all seven wrapped in `TEMP_FAILURE_RETRY`; `is_selinux_enabled` makes
no retryable call), if the native call is interrupted with `errno = EINTR`
any `n` times and then succeeds, the operation's entire observable outcome —
return value, pending-exception slot, final `errno`, and the resource event
trace (so in particular the buffer frees and the `errno` inspection, which
happen exactly once, outside the retry loop) — equals that of a single
uninterrupted success. -/
theorem claim_C2_retry_transparent (n : Nat) (intr : Attempt) (hintr : intr.errno = EINTR)
    (final : Attempt) (hfinal : final.errno = 0) (fd : Int) (path ctxB : List Nat)
    (p : Option Exn) :
    Java_me_zhanghai_android_libselinux_SeLinux_fgetfilecon fd
        (List.replicate n intr ++ [final]) p =
      Java_me_zhanghai_android_libselinux_SeLinux_fgetfilecon fd [final] p ∧
    Java_me_zhanghai_android_libselinux_SeLinux_fsetfilecon fd ctxB
        (List.replicate n intr ++ [final]) p =
      Java_me_zhanghai_android_libselinux_SeLinux_fsetfilecon fd ctxB [final] p ∧
    Java_me_zhanghai_android_libselinux_SeLinux_getfilecon path
        (List.replicate n intr ++ [final]) p =
      Java_me_zhanghai_android_libselinux_SeLinux_getfilecon path [final] p ∧
    Java_me_zhanghai_android_libselinux_SeLinux_lgetfilecon path
        (List.replicate n intr ++ [final]) p =
      Java_me_zhanghai_android_libselinux_SeLinux_lgetfilecon path [final] p ∧
    Java_me_zhanghai_android_libselinux_SeLinux_setfilecon path ctxB
        (List.replicate n intr ++ [final]) p =
      Java_me_zhanghai_android_libselinux_SeLinux_setfilecon path ctxB [final] p ∧
    Java_me_zhanghai_android_libselinux_SeLinux_lsetfilecon path ctxB
        (List.replicate n intr ++ [final]) p =
      Java_me_zhanghai_android_libselinux_SeLinux_lsetfilecon path ctxB [final] p ∧
    Java_me_zhanghai_android_libselinux_SeLinux_security_1getenforce
        (List.replicate n intr ++ [final]) p =
      Java_me_zhanghai_android_libselinux_SeLinux_security_1getenforce [final] p := by
  have ht : tempFailureRetry (List.replicate n intr ++ [final]) = tempFailureRetry [final] :=
    tempFailureRetry_replicate_eintr n intr hintr [final]
  refine ⟨fgetfilecon_attempts_congr fd _ _ p ht,
    fsetfilecon_attempts_congr fd ctxB _ _ p ht, ?_, ?_, ?_, ?_,
    security_getenforce_attempts_congr _ _ p ht⟩
  · exact doGetfilecon_attempts_congr path _ _ p false ht
  · exact doGetfilecon_attempts_congr path _ _ p true ht
  · exact doSetfilecon_attempts_congr path ctxB _ _ p false ht
  · exact doSetfilecon_attempts_congr path ctxB _ _ p true ht

/-- Concrete instance of claim C2: three interruptions before success, on
`fgetfilecon`. -/
theorem claim_C2_retry_transparent_witness :
    Java_me_zhanghai_android_libselinux_SeLinux_fgetfilecon 3
        (List.replicate 3 ⟨-1, 4, []⟩ ++ [⟨0, 0, [115]⟩]) none =
      Java_me_zhanghai_android_libselinux_SeLinux_fgetfilecon 3 [⟨0, 0, [115]⟩] none :=
  (claim_C2_retry_transparent 3 ⟨-1, 4, []⟩ (by decide) ⟨0, 0, [115]⟩ (by decide)
    3 [47, 97] [117, 58] none).1

section ExceptionLemmas

theorem constructExn_message (n : String) (e : Int) (p : Option Exn) :
    (constructExn n e p).message = n := by
  cases p <;> rfl

theorem constructExn_errorCode (n : String) (e : Int) (p : Option Exn) :
    (constructExn n e p).errorCode = e := by
  cases p <;> rfl

theorem throwException_slotAfter (p : Option Exn) (n : String) (e : Int) :
    (throwException p n e).slotAfter = some (constructExn n e p) := by
  cases p <;> rfl

theorem throwErrnoException_slotAfter (errnoValue : Nat) (p : Option Exn) (n : String) :
    (throwErrnoException errnoValue p n).slotAfter =
      some (constructExn n (Int.ofNat errnoValue) p) := by
  cases p <;> rfl

end ExceptionLemmas

/-- Claim C3: `security_getenforce` returns true when the native tri-state
query reports 1, false when it reports 0 (no exception raised in either
case), and when it reports -1 with `errno` still unset the error code is
normalized to `EIO` (5) and an `ErrnoException` carrying that code — with
message `security_getenforce` and the previously pending exception, if any,
as its cause — is raised. -/
theorem claim_C3_getenforce (p : Option Exn) :
    (Java_me_zhanghai_android_libselinux_SeLinux_security_1getenforce [⟨1, 0, []⟩] p).ret =
      true ∧
    (Java_me_zhanghai_android_libselinux_SeLinux_security_1getenforce [⟨1, 0, []⟩] p).pending =
      p ∧
    (Java_me_zhanghai_android_libselinux_SeLinux_security_1getenforce [⟨0, 0, []⟩] p).ret =
      false ∧
    (Java_me_zhanghai_android_libselinux_SeLinux_security_1getenforce [⟨0, 0, []⟩] p).pending =
      p ∧
    (Java_me_zhanghai_android_libselinux_SeLinux_security_1getenforce [⟨-1, 0, []⟩] p).errno =
      EIO_code ∧
    (Java_me_zhanghai_android_libselinux_SeLinux_security_1getenforce [⟨-1, 0, []⟩] p).pending =
      some (constructExn "security_getenforce" (Int.ofNat EIO_code) p) := by
  refine ⟨rfl, rfl, rfl, rfl, rfl, ?_⟩
  simp [Java_me_zhanghai_android_libselinux_SeLinux_security_1getenforce, tempFailureRetry,
    EINTR, EIO_code, throwErrnoException_slotAfter]

/-- Claim C4: whenever the failure path raises a translated exception, the
pending-exception slot is empty at the moment the new exception object is
constructed; the raised exception's chained cause is exactly the previously
pending exception instance (three-argument constructor) when one was
pending, and the exception is built with the two-argument constructor — and
so carries no cause — when none was pending; after the raise the pending
slot holds exactly the new exception. -/
theorem claim_C4_exception_chaining (p : Option Exn) (functionName : String) (error : Int) :
    (throwException p functionName error).slotBeforeNew = none ∧
    (throwException p functionName error).slotAfter =
      some (throwException p functionName error).thrown ∧
    (∀ c, p = some c →
      (throwException p functionName error).thrown = Exn.mk3 functionName error c) ∧
    (p = none → (throwException p functionName error).thrown = Exn.mk2 functionName error) ∧
    (throwException p functionName error).thrown.cause = p := by
  refine ⟨?_, ?_, ?_, ?_, ?_⟩ <;> cases p with
  | none => first | rfl | (intro c hc; cases hc) | (intro h; rfl)
  | some c0 =>
      first | rfl | (intro c hc; cases hc; rfl) | (intro h; cases h)

/-- Concrete instance of claim C4: a pending exception becomes the exact
cause of the newly raised exception, and the slot is clear at construction
time. -/
theorem claim_C4_exception_chaining_witness :
    (throwException (some (Exn.mk2 "prior" 7)) "setfilecon" 13).slotBeforeNew = none ∧
    (throwException (some (Exn.mk2 "prior" 7)) "setfilecon" 13).thrown =
      Exn.mk3 "setfilecon" 13 (Exn.mk2 "prior" 7) := by
  refine ⟨(claim_C4_exception_chaining (some (Exn.mk2 "prior" 7)) "setfilecon" 13).1, ?_⟩
  exact (claim_C4_exception_chaining (some (Exn.mk2 "prior" 7)) "setfilecon"
    13).2.2.1 (Exn.mk2 "prior" 7) rfl

/-- Claim C5: for every get-context and set-context operation (follow,
no-follow and by-descriptor variants), when the native call leaves a nonzero
`errno = E` (after the retry loop, so `E` is never `EINTR`), the operation
raises an exception whose message is the literal name of the failed native
function for that variant and whose error code equals `E`; when `errno` is
zero the pending-exception slot is left untouched (nothing is raised). -/
theorem claim_C5_error_translation (E : Nat) (hE : E ≠ 0) (hEintr : E ≠ EINTR)
    (p : Option Exn) (path ctxB c : List Nat) (rc : Int) (fd : Int) :
    ((Java_me_zhanghai_android_libselinux_SeLinux_getfilecon path
        [⟨rc, E, c⟩] p).pending).map Exn.message = some "getfilecon" ∧
    ((Java_me_zhanghai_android_libselinux_SeLinux_getfilecon path
        [⟨rc, E, c⟩] p).pending).map Exn.errorCode = some (Int.ofNat E) ∧
    ((Java_me_zhanghai_android_libselinux_SeLinux_lgetfilecon path
        [⟨rc, E, c⟩] p).pending).map Exn.message = some "lgetfilecon" ∧
    ((Java_me_zhanghai_android_libselinux_SeLinux_lgetfilecon path
        [⟨rc, E, c⟩] p).pending).map Exn.errorCode = some (Int.ofNat E) ∧
    ((Java_me_zhanghai_android_libselinux_SeLinux_setfilecon path ctxB
        [⟨rc, E, c⟩] p).pending).map Exn.message = some "setfilecon" ∧
    ((Java_me_zhanghai_android_libselinux_SeLinux_setfilecon path ctxB
        [⟨rc, E, c⟩] p).pending).map Exn.errorCode = some (Int.ofNat E) ∧
    ((Java_me_zhanghai_android_libselinux_SeLinux_lsetfilecon path ctxB
        [⟨rc, E, c⟩] p).pending).map Exn.message = some "lsetfilecon" ∧
    ((Java_me_zhanghai_android_libselinux_SeLinux_lsetfilecon path ctxB
        [⟨rc, E, c⟩] p).pending).map Exn.errorCode = some (Int.ofNat E) ∧
    ((Java_me_zhanghai_android_libselinux_SeLinux_fgetfilecon fd
        [⟨rc, E, c⟩] p).pending).map Exn.message = some "fgetfilecon" ∧
    ((Java_me_zhanghai_android_libselinux_SeLinux_fgetfilecon fd
        [⟨rc, E, c⟩] p).pending).map Exn.errorCode = some (Int.ofNat E) ∧
    ((Java_me_zhanghai_android_libselinux_SeLinux_fsetfilecon fd ctxB
        [⟨rc, E, c⟩] p).pending).map Exn.message = some "fsetfilecon" ∧
    ((Java_me_zhanghai_android_libselinux_SeLinux_fsetfilecon fd ctxB
        [⟨rc, E, c⟩] p).pending).map Exn.errorCode = some (Int.ofNat E) ∧
    (Java_me_zhanghai_android_libselinux_SeLinux_getfilecon path
        [⟨rc, 0, c⟩] p).pending = p ∧
    (Java_me_zhanghai_android_libselinux_SeLinux_lgetfilecon path
        [⟨rc, 0, c⟩] p).pending = p ∧
    (Java_me_zhanghai_android_libselinux_SeLinux_setfilecon path ctxB
        [⟨rc, 0, c⟩] p).pending = p ∧
    (Java_me_zhanghai_android_libselinux_SeLinux_lsetfilecon path ctxB
        [⟨rc, 0, c⟩] p).pending = p ∧
    (Java_me_zhanghai_android_libselinux_SeLinux_fgetfilecon fd
        [⟨rc, 0, c⟩] p).pending = p ∧
    (Java_me_zhanghai_android_libselinux_SeLinux_fsetfilecon fd ctxB
        [⟨rc, 0, c⟩] p).pending = p := by
  have h4 : E ≠ 4 := by simpa [EINTR] using hEintr
  simp [Java_me_zhanghai_android_libselinux_SeLinux_getfilecon,
    Java_me_zhanghai_android_libselinux_SeLinux_lgetfilecon,
    Java_me_zhanghai_android_libselinux_SeLinux_setfilecon,
    Java_me_zhanghai_android_libselinux_SeLinux_lsetfilecon,
    Java_me_zhanghai_android_libselinux_SeLinux_fgetfilecon,
    Java_me_zhanghai_android_libselinux_SeLinux_fsetfilecon,
    doGetfilecon, doSetfilecon, tempFailureRetry, hE, hEintr,
    h4, throwErrnoException_slotAfter, constructExn_message, constructExn_errorCode, EINTR]

/-- Concrete instance of claim C5: `lgetfilecon` failing with `errno = 13`
raises with message `lgetfilecon` and error code 13. -/
theorem claim_C5_error_translation_witness :
    ((Java_me_zhanghai_android_libselinux_SeLinux_lgetfilecon [47, 97]
        [⟨-1, 13, []⟩] none).pending).map Exn.message = some "lgetfilecon" :=
  (claim_C5_error_translation 13 (by decide) (by decide) none [47, 97] [117] [] (-1)
    9).2.2.1

/-- Claim C6: in every operation that marshals inputs (`setfilecon` and
`lsetfilecon` via `doSetfilecon`, `fsetfilecon`, and `getfilecon` and
`lgetfilecon` via `doGetfilecon`), each allocated native input buffer is
allocated once and freed exactly once on every exit path — the traces below
hold for all attempt streams, so for native success and failure alike — and
every free precedes the inspection of the `errno` channel. -/
theorem claim_C6_buffers_freed_once (path ctxB javaCtx : List Nat) (attempts : List Attempt)
    (p : Option Exn) (flagG flagS : Bool) (fd : Int) :
    (doSetfilecon path ctxB attempts p flagS).events =
      [Event.malloc 0, Event.malloc 1, Event.free 0, Event.free 1,
        Event.errnoCheck (tempFailureRetry attempts).errno] ∧
    (Java_me_zhanghai_android_libselinux_SeLinux_fsetfilecon fd javaCtx attempts p).events =
      [Event.malloc 0, Event.free 0, Event.errnoCheck (tempFailureRetry attempts).errno] ∧
    ((doGetfilecon path attempts p flagG).events).take 3 =
      [Event.malloc 0, Event.free 0, Event.errnoCheck (tempFailureRetry attempts).errno] ∧
    ((doGetfilecon path attempts p flagG).events).count (Event.free 0) = 1 ∧
    ((doGetfilecon path attempts p flagG).events).count (Event.malloc 0) = 1 := by
  by_cases h : (tempFailureRetry attempts).errno = 0 <;>
    simp [doSetfilecon, doGetfilecon,
      Java_me_zhanghai_android_libselinux_SeLinux_fsetfilecon, h, List.count_cons]

/-- Claim C7: a failed first resolution of a class, field or constructor
symbol aborts the process (the outcome type has no raised-exception
alternative, matching the source, which calls `abort()` and never throws
from these paths); a successful first resolution stores the handle in the
cache; and every resolution that finds a cached handle returns it performing
zero JNI lookups (for the constructors: the first resolution with the class
already cached performs exactly the two `GetMethodID` lookups, and a later
call finding both `static` constructor caches filled performs none). -/
theorem claim_C7_symbol_cache (env env2 : JniSymEnv) (h g f c3 c2 : Nat)
    (cc : Option Nat) :
    (env.findClassResult = none →
      (getErrnoExceptionClass none env).outcome = SymOutcome.aborted) ∧
    (env.getFieldIDResult = none →
      (getFileDescriptorDescriptorField none (some g) env).outcome = SymOutcome.aborted) ∧
    getErrnoExceptionClass (some h) env = ⟨SymOutcome.ok h, some h, 0⟩ ∧
    getFileDescriptorDescriptorField (some f) cc env = ⟨SymOutcome.ok f, some f, cc, 0⟩ ∧
    (findClass env = SymOutcome.ok g →
      getErrnoExceptionClass none env = ⟨SymOutcome.ok g, some g, 1⟩ ∧
      getErrnoExceptionClass (getErrnoExceptionClass none env).cache env2 =
        ⟨SymOutcome.ok g, some g, 0⟩) ∧
    (env.getMethodID3Result = none →
      (resolveErrnoExceptionConstructors none none (some h) env).outcome =
        SymOutcome.aborted) ∧
    (env.getMethodID2Result = none →
      (resolveErrnoExceptionConstructors none none (some h) env).outcome =
        SymOutcome.aborted) ∧
    resolveErrnoExceptionConstructors (some c3) (some c2) cc env =
      ⟨SymOutcome.ok (c3, c2), some c3, some c2, cc, 0⟩ ∧
    (env.getMethodID3Result = some c3 → env.getMethodID2Result = some c2 →
      resolveErrnoExceptionConstructors none none (some h) env =
        ⟨SymOutcome.ok (c3, c2), some c3, some c2, some h, 2⟩ ∧
      resolveErrnoExceptionConstructors (some c3) (some c2) (some h) env2 =
        ⟨SymOutcome.ok (c3, c2), some c3, some c2, some h, 0⟩) := by
  refine ⟨?_, ?_, rfl, rfl, ?_, ?_, ?_, rfl, ?_⟩
  · intro h1
    simp [getErrnoExceptionClass, findClass, h1]
  · intro h2
    simp [getFileDescriptorDescriptorField, getFileDescriptorClass, findField, h2]
  · intro h5
    have hfirst : getErrnoExceptionClass none env = ⟨SymOutcome.ok g, some g, 1⟩ := by
      simp [getErrnoExceptionClass, h5]
    exact ⟨hfirst, by simp [getErrnoExceptionClass, h5]⟩
  · intro hm3
    simp [resolveErrnoExceptionConstructors, getErrnoExceptionClass, findMethod, hm3]
  · intro hm2
    cases hm3 : env.getMethodID3Result with
    | none =>
        simp [resolveErrnoExceptionConstructors, getErrnoExceptionClass, findMethod,
          hm3]
    | some m3 =>
        simp [resolveErrnoExceptionConstructors, getErrnoExceptionClass, findMethod,
          hm3, hm2]
  · intro hm3 hm2
    refine ⟨?_, rfl⟩
    simp [resolveErrnoExceptionConstructors, getErrnoExceptionClass, findMethod,
      hm3, hm2]

/-- Concrete instance of claim C7: a missing class symbol aborts the process
on first resolution, and so does a missing constructor symbol. -/
theorem claim_C7_symbol_cache_witness :
    (getErrnoExceptionClass none ⟨none, fun x => some x, none, none, none⟩).outcome =
      SymOutcome.aborted ∧
    (resolveErrnoExceptionConstructors none none (some 7)
        ⟨none, fun x => some x, none, none, none⟩).outcome = SymOutcome.aborted :=
  ⟨(claim_C7_symbol_cache ⟨none, fun x => some x, none, none, none⟩
      ⟨none, fun x => some x, none, none, none⟩ 7 8 9 10 11 none).1 rfl,
    (claim_C7_symbol_cache ⟨none, fun x => some x, none, none, none⟩
      ⟨none, fun x => some x, none, none, none⟩ 7 8 9 10 11 none).2.2.2.2.2.1 rfl⟩

/-- Claim C8: `is_selinux_enabled` never raises for any native return value
(the pending-exception slot is returned untouched, no buffer events occur)
and always yields a managed boolean. -/
theorem claim_C8_enabled_never_throws (enabled : Int) (errno0 : Nat) (p : Option Exn) :
    (Java_me_zhanghai_android_libselinux_SeLinux_is_1selinux_1enabled enabled errno0
      p).pending = p ∧
    (Java_me_zhanghai_android_libselinux_SeLinux_is_1selinux_1enabled enabled errno0
      p).events = [] ∧
    ((Java_me_zhanghai_android_libselinux_SeLinux_is_1selinux_1enabled enabled errno0
        p).ret = true ∨
      (Java_me_zhanghai_android_libselinux_SeLinux_is_1selinux_1enabled enabled errno0
        p).ret = false) :=
  ⟨rfl, rfl, Bool.eq_false_or_eq_true _⟩

/-- Claim C9: for every get-context and set-context operation, the native
call's integer return value is never inspected — the whole observable
outcome is invariant under changing it — so success or failure is decided
solely by `errno`: a -1 return with `errno = 0` follows the success path
(slot untouched, converted context returned), and with nonzero `errno` the
failure path is taken regardless of the return value (here: error code 13
surfaces even for a 0 return). -/
theorem claim_C9_errno_decides (rc1 rc2 : Int) (e : Nat) (c path ctxB : List Nat)
    (p : Option Exn) (flag : Bool) (fd : Int) :
    doGetfilecon path [⟨rc1, e, c⟩] p flag = doGetfilecon path [⟨rc2, e, c⟩] p flag ∧
    doSetfilecon path ctxB [⟨rc1, e, c⟩] p flag =
      doSetfilecon path ctxB [⟨rc2, e, c⟩] p flag ∧
    Java_me_zhanghai_android_libselinux_SeLinux_fgetfilecon fd [⟨rc1, e, c⟩] p =
      Java_me_zhanghai_android_libselinux_SeLinux_fgetfilecon fd [⟨rc2, e, c⟩] p ∧
    Java_me_zhanghai_android_libselinux_SeLinux_fsetfilecon fd ctxB [⟨rc1, e, c⟩] p =
      Java_me_zhanghai_android_libselinux_SeLinux_fsetfilecon fd ctxB [⟨rc2, e, c⟩] p ∧
    (doGetfilecon path [⟨-1, 0, c⟩] p flag).pending = p ∧
    (doGetfilecon path [⟨-1, 0, c⟩] p flag).ret = some (newBytesFromString c) ∧
    ((doSetfilecon path ctxB [⟨0, 13, c⟩] p flag).pending).map Exn.errorCode =
      some (Int.ofNat 13) := by
  by_cases he : e = 4
  · subst he
    simp [doGetfilecon, doSetfilecon,
      Java_me_zhanghai_android_libselinux_SeLinux_fgetfilecon,
      Java_me_zhanghai_android_libselinux_SeLinux_fsetfilecon,
      tempFailureRetry, EINTR,
      throwErrnoException_slotAfter, constructExn_errorCode]
  · by_cases h0 : e = 0 <;>
      simp [doGetfilecon, doSetfilecon,
        Java_me_zhanghai_android_libselinux_SeLinux_fgetfilecon,
        Java_me_zhanghai_android_libselinux_SeLinux_fsetfilecon,
        tempFailureRetry, EINTR, he, h0,
        throwErrnoException_slotAfter, constructExn_errorCode]

/-- Claim C10: `is_selinux_enabled` returns true for every nonzero native
return value — including the error sentinel -1 — and returns false exactly
when the native query returns 0. -/
theorem claim_C10_enabled_truthiness (errno0 : Nat) (p : Option Exn) :
    (Java_me_zhanghai_android_libselinux_SeLinux_is_1selinux_1enabled (-1) errno0 p).ret =
      true ∧
    (∀ enabled : Int, enabled ≠ 0 →
      (Java_me_zhanghai_android_libselinux_SeLinux_is_1selinux_1enabled enabled errno0
        p).ret = true) ∧
    (∀ enabled : Int,
      (Java_me_zhanghai_android_libselinux_SeLinux_is_1selinux_1enabled enabled errno0
        p).ret = false ↔ enabled = 0) := by
  refine ⟨rfl, ?_, ?_⟩
  · intro en hen
    simp [Java_me_zhanghai_android_libselinux_SeLinux_is_1selinux_1enabled, hen]
  · intro en
    by_cases hen : en = 0 <;>
      simp [Java_me_zhanghai_android_libselinux_SeLinux_is_1selinux_1enabled, hen]

/-- Concrete instance of claim C10: true both at the sentinel -1 and at a
positive value. -/
theorem claim_C10_enabled_truthiness_witness :
    (Java_me_zhanghai_android_libselinux_SeLinux_is_1selinux_1enabled (-1) 0 none).ret =
      true ∧
    (Java_me_zhanghai_android_libselinux_SeLinux_is_1selinux_1enabled 7 0 none).ret =
      true :=
  ⟨(claim_C10_enabled_truthiness 0 none).1,
    (claim_C10_enabled_truthiness 0 none).2.1 7 (by decide)⟩
